import Mathlib

/-!
Verification of the SMB risk dashboard's loader / filter engine
(`src/app.py`) against its specification.

The dashboard loads a CSV of transactions annotated with sentiment
scores, filters rows by three predicates (price strictly above a
minimum, sentiment strictly below a maximum, channel in an allowed
set), shows three means over the surviving rows, and exports the
filtered rows as CSV.

Numeric cells are modelled as `Option ℚ` (pandas `NaN` is `none`); a
missing categorical cell is `Option String`.  Any comparison with a
missing value is false, and `Series.isin` never matches a missing
value, exactly as in pandas.
-/

/-- Day-month-year timestamp value, the result of a successful
day-first date parse. -/
abbrev DateVal := Nat × Nat × Nat

/-- One record of the dataset, with the ten columns of the source CSV.
Numeric and date cells can be missing (`none`), mirroring pandas
`NaN`/`NaT`. -/
structure Row where
  uniqueId : String
  orderId : String
  orderDateTime : Option DateVal
  customerRemarks : String
  sentiment : Option ℚ
  price : Option ℚ
  syntheticAmount : Option ℚ
  syntheticMerchant : String
  channel : Option String
  csat : Option ℚ
deriving DecidableEq, Repr

/-- The three sidebar filter inputs: `price_min`, `sentiment_max`,
`channel_opts` in `app.py`. -/
structure Criteria where
  minPrice : ℚ
  maxSentiment : ℚ
  allowedChannels : List String
deriving DecidableEq, Repr

/-- The boolean mask of `app.py` lines 156-160:
`(df["Item_price"] > price_min) & (df["sentiment_score"] < sentiment_max)
& (df["channel_name"].isin(channel_opts))`.  A missing cell fails every
comparison and is never a member of the allowed set, as in pandas. -/
def rowPasses (c : Criteria) (r : Row) : Bool :=
  (match r.price with
    | some p => decide (c.minPrice < p)
    | none => false)
  && (match r.sentiment with
    | some s => decide (s < c.maxSentiment)
    | none => false)
  && (match r.channel with
    | some ch => decide (ch ∈ c.allowedChannels)
    | none => false)

/-- `filtered = df[mask]` of `app.py` lines 156-160: the rows of the
dataset surviving the three-predicate mask, in dataset order. -/
def filtered (df : List Row) (c : Criteria) : List Row :=
  df.filter (rowPasses c)

/-- `channel_opts` default of `app.py` lines 149-153:
`df["channel_name"].dropna().unique()` — the distinct channel values
present (non-missing) in the dataset. -/
def channel_opts (df : List Row) : List String :=
  (df.filterMap Row.channel).dedup

theorem rowPasses_iff (c : Criteria) (r : Row) :
    rowPasses c r = true ↔
      (∃ p, r.price = some p ∧ c.minPrice < p) ∧
      (∃ s, r.sentiment = some s ∧ s < c.maxSentiment) ∧
      (∃ ch, r.channel = some ch ∧ ch ∈ c.allowedChannels) := by
  unfold rowPasses
  rcases r with ⟨u, o, dt, rem, sen, pr, am, mer, chan, cs⟩
  rcases pr with _ | p <;> rcases sen with _ | s <;> rcases chan with _ | ch <;>
    simp [and_assoc]

/-- C1: a row is in the filter's result iff it is a dataset row whose
price is strictly above `minPrice`, whose sentiment is strictly below
`maxSentiment`, and whose channel is in `allowedChannels`; no dataset
row outside the result satisfies all three predicates. -/
theorem mem_filtered_iff (c : Criteria) (df : List Row) (r : Row) :
    r ∈ filtered df c ↔
      r ∈ df ∧
      (∃ p, r.price = some p ∧ c.minPrice < p) ∧
      (∃ s, r.sentiment = some s ∧ s < c.maxSentiment) ∧
      (∃ ch, r.channel = some ch ∧ ch ∈ c.allowedChannels) := by
  rw [filtered, List.mem_filter, rowPasses_iff]

/-- C3: the filter is idempotent — re-filtering its own result with the
same criteria changes nothing — and its result is a subset of the
dataset's rows of cardinality at most the dataset's. -/
theorem filtered_idempotent_subset (df : List Row) (c : Criteria) :
    filtered (filtered df c) c = filtered df c ∧
    filtered df c ⊆ df ∧
    (filtered df c).length ≤ df.length := by
  refine ⟨?_, ?_, ?_⟩
  · unfold filtered
    rw [List.filter_filter]
    exact List.filter_congr fun r _ => by cases rowPasses c r <;> simp
  · exact fun r hr => (List.mem_filter.mp hr).1
  · exact List.length_filter_le _ df

/-- C3 witness: idempotence, subset and cardinality bound at a concrete
dataset. -/
theorem filtered_idempotent_subset_witness :
    filtered (filtered [] ⟨0, 0, []⟩) ⟨0, 0, []⟩ = filtered [] ⟨0, 0, []⟩ ∧
    filtered [] ⟨0, 0, []⟩ ⊆ [] ∧
    (filtered [] ⟨0, 0, []⟩).length ≤ ([] : List Row).length :=
  filtered_idempotent_subset [] ⟨0, 0, []⟩

/-- C4: an empty allowed-channel set yields an empty filter result, for
every dataset and every pair of numeric bounds — there is no fallback
to all channels. -/
theorem filtered_empty_channels (df : List Row) (minP maxS : ℚ) :
    filtered df ⟨minP, maxS, []⟩ = [] := by
  unfold filtered
  rw [List.filter_eq_nil_iff]
  intro r _ h
  rcases (rowPasses_iff _ r).mp h with ⟨_, _, ⟨ch, _, hch⟩⟩
  exact absurd hch (List.not_mem_nil ch)

/-- C5: the filter is stable — the result is a subsequence of the
dataset, so surviving rows keep their original relative order. -/
theorem filtered_sublist (df : List Row) (c : Criteria) :
    (filtered df c).Sublist df :=
  List.filter_sublist df

/-- Mean of a list of rationals: the model of pandas `Series.mean` once
the missing values have been dropped — `NaN` (here `none`) when no
value remains, never zero. -/
def listMean (xs : List ℚ) : Option ℚ :=
  if xs = [] then none else some (xs.sum / (xs.length : ℚ))

/-- `filtered['Item_price'].mean()` of `app.py` line 188: pandas skips
missing values (`skipna=True` is the default). -/
def meanItemPrice (v : List Row) : Option ℚ :=
  listMean (v.filterMap Row.price)

/-- `filtered['synthetic_amount'].mean()` of `app.py` line 189. -/
def meanSyntheticAmount (v : List Row) : Option ℚ :=
  listMean (v.filterMap Row.syntheticAmount)

/-- `filtered['sentiment_score'].mean()` of `app.py` line 190. -/
def meanSentiment (v : List Row) : Option ℚ :=
  listMean (v.filterMap Row.sentiment)

/-- Modelled from the spec: the arithmetic mean of a field taken over
exactly the given rows — defined (`some`) only when the view is
nonempty and the field is present in every row, `NaN`/undefined
otherwise. -/
def specFieldMean (f : Row → Option ℚ) (v : List Row) : Option ℚ :=
  if v.isEmpty || v.any (fun r => (f r).isNone) then none
  else listMean (v.filterMap f)

theorem mem_filtered_fields_present {df : List Row} {c : Criteria} {r : Row}
    (h : r ∈ filtered df c) :
    r.price.isSome ∧ r.sentiment.isSome ∧ r.channel.isSome := by
  have hp := (rowPasses_iff c r).mp (List.mem_filter.mp h).2
  obtain ⟨⟨p, hp1, _⟩, ⟨s, hs1, _⟩, ⟨ch, hch1, _⟩⟩ := hp
  exact ⟨by rw [hp1]; rfl, by rw [hs1]; rfl, by rw [hch1]; rfl⟩

theorem specFieldMean_of_all_present {f : Row → Option ℚ} {v : List Row}
    (hv : ∀ r ∈ v, (f r).isSome) :
    specFieldMean f v = listMean (v.filterMap f) := by
  unfold specFieldMean
  cases v with
  | nil => simp [listMean]
  | cons a t =>
      have hany : ((a :: t).any fun r => (f r).isNone) = false := by
        rw [List.any_eq_false]
        intro r hr
        have h := hv r hr
        cases hfr : f r
        · rw [hfr] at h; simp at h
        · simp [hfr]
      simp [hany]

theorem filterMap_filter_isSome (f : Row → Option ℚ) (v : List Row) :
    (v.filter (fun r => (f r).isSome)).filterMap f = v.filterMap f := by
  induction v with
  | nil => rfl
  | cons a t ih =>
      cases ha : f a <;>
        simp [List.filter_cons, List.filterMap_cons, ha, ih]

/-- C2 amended: mean item price and mean sentiment equal the arithmetic
mean of those fields over exactly the surviving rows (which necessarily
carry present values, having passed the strict comparisons); mean
synthetic amount equals the arithmetic mean over the surviving rows
whose synthetic amount is present (pandas skips missing values); each
mean of an empty view is `NaN`/undefined (`none`), never zero. -/
theorem filtered_means (df : List Row) (c : Criteria) :
    meanItemPrice (filtered df c) = specFieldMean Row.price (filtered df c) ∧
    meanSentiment (filtered df c) =
      specFieldMean Row.sentiment (filtered df c) ∧
    meanSyntheticAmount (filtered df c) =
      listMean (((filtered df c).filter
        (fun r => r.syntheticAmount.isSome)).filterMap Row.syntheticAmount) ∧
    (filtered df c = [] →
      meanItemPrice (filtered df c) = none ∧
      meanSyntheticAmount (filtered df c) = none ∧
      meanSentiment (filtered df c) = none) := by
  refine ⟨?_, ?_, ?_, ?_⟩
  · rw [specFieldMean_of_all_present fun r hr =>
      (mem_filtered_fields_present hr).1]
    rfl
  · rw [specFieldMean_of_all_present fun r hr =>
      (mem_filtered_fields_present hr).2.1]
    rfl
  · rw [filterMap_filter_isSome]
    rfl
  · intro h
    rw [h]
    exact ⟨rfl, rfl, rfl⟩

/-- A concrete row passing the example criteria but with a missing
synthetic amount. -/
def rowA : Row :=
  { uniqueId := "u1", orderId := "o1", orderDateTime := none,
    customerRemarks := "very bad", sentiment := some (-(2 : ℚ)),
    price := some 300, syntheticAmount := none,
    syntheticMerchant := "m1", channel := some "web", csat := some 1 }

/-- A concrete row passing the example criteria with synthetic amount
present. -/
def rowB : Row :=
  { uniqueId := "u2", orderId := "o2", orderDateTime := none,
    customerRemarks := "awful", sentiment := some (-(3 : ℚ)),
    price := some 250, syntheticAmount := some 10,
    syntheticMerchant := "m2", channel := some "web", csat := some 2 }

/-- Example criteria: minimum price 200, maximum sentiment -1, channel
"web" allowed. -/
def cEx : Criteria :=
  { minPrice := 200, maxSentiment := -(1 : ℚ),
    allowedChannels := ["web"] }

/-- Example dataset of the two rows above. -/
def dEx : List Row := [rowA, rowB]

/-- C2 counterexample: on `dEx` both rows survive `cEx`, one with a
missing synthetic amount; the code's mean skips the missing value and
returns 10, while the arithmetic mean of the field taken over exactly
the surviving rows is undefined — the two disagree. -/
theorem filtered_means_counterexample :
    meanSyntheticAmount (filtered dEx cEx) = some 10 ∧
    specFieldMean Row.syntheticAmount (filtered dEx cEx) = none := by
  have hf : filtered dEx cEx = [rowA, rowB] := by decide
  constructor
  · rw [meanSyntheticAmount, hf]
    rw [show List.filterMap Row.syntheticAmount [rowA, rowB] = [(10 : ℚ)]
      from rfl]
    rw [listMean]
    norm_num
  · rw [hf]
    simp [specFieldMean, rowA]

/-- C2 witness: the amended theorem applied to the empty dataset, where
each mean is undefined, not zero. -/
theorem filtered_means_witness :
    meanItemPrice (filtered [] cEx) = none ∧
    meanSyntheticAmount (filtered [] cEx) = none ∧
    meanSentiment (filtered [] cEx) = none :=
  (filtered_means [] cEx).2.2.2 rfl

/-- The dataset held in process memory by the app: `df` as returned by
`load_data()` in `app.py` line 112, read-only for the rest of the
process lifetime. -/
structure AppState where
  df : List Row
deriving DecidableEq, Repr

/-- One filtering cycle of `app.py` lines 156-160: boolean-mask
selection builds a new frame from `df` and leaves `df` itself
untouched — the state after the cycle is returned alongside the view. -/
def applyFilterStep (s : AppState) (c : Criteria) : AppState × List Row :=
  (s, filtered s.df c)

/-- C8: filtering is pure and deterministic — a cycle leaves the
dataset unchanged, and two cycles over equal datasets with equal
criteria produce identical filtered views. -/
theorem filter_step_pure (s t : AppState) (c c' : Criteria)
    (hdf : t.df = s.df) (hc : c' = c) :
    (applyFilterStep s c).1 = s ∧
    (applyFilterStep t c').2 = (applyFilterStep s c).2 := by
  refine ⟨rfl, ?_⟩
  simp [applyFilterStep, hdf, hc]

/-- C8 witness: purity and determinism of a cycle at the concrete
example dataset and criteria. -/
theorem filter_step_pure_witness :
    (applyFilterStep ⟨dEx⟩ cEx).1 = ⟨dEx⟩ ∧
    (applyFilterStep ⟨dEx⟩ cEx).2 = (applyFilterStep ⟨dEx⟩ cEx).2 :=
  filter_step_pure ⟨dEx⟩ ⟨dEx⟩ cEx cEx rfl rfl

/-- C10: a dataset row with a missing item price, sentiment score or
channel value is never in the filtered view, even under the default
allowed-channel set containing every channel value observed in the
dataset — a missing cell satisfies none of the three predicates. -/
theorem missing_values_never_flagged (df : List Row) (minP maxS : ℚ)
    (r : Row) (_hmem : r ∈ df)
    (hmiss : r.price = none ∨ r.sentiment = none ∨ r.channel = none) :
    r ∉ filtered df ⟨minP, maxS, channel_opts df⟩ := by
  intro hmem
  obtain ⟨hp, hs, hc⟩ := mem_filtered_fields_present hmem
  rcases hmiss with h | h | h
  · rw [h] at hp; simp at hp
  · rw [h] at hs; simp at hs
  · rw [h] at hc; simp at hc

/-- A concrete row whose channel cell is missing. -/
def rowNoChannel : Row :=
  { uniqueId := "u3", orderId := "o3", orderDateTime := none,
    customerRemarks := "ok", sentiment := some (-(2 : ℚ)),
    price := some 400, syntheticAmount := some 5,
    syntheticMerchant := "m3", channel := none, csat := some 3 }

/-- C10 witness: the row with the missing channel is excluded from the
view over a concrete dataset with the default channel options. -/
theorem missing_values_never_flagged_witness :
    rowNoChannel ∉
      filtered [rowB, rowNoChannel]
        ⟨200, -1, channel_opts [rowB, rowNoChannel]⟩ :=
  missing_values_never_flagged [rowB, rowNoChannel] 200 (-1) rowNoChannel
    (by simp [List.mem_cons]) (Or.inr (Or.inr rfl))

/-- One cell of a loaded frame: original text, or the result of date
conversion (`none` is pandas `NaT`, a missing value). -/
inductive Cell where
  | text (s : String)
  | date (d : Option DateVal)
deriving DecidableEq, Repr

/-- A tokenized tabular file: named columns of textual cells, as
`pd.read_csv` yields before any conversion. -/
abbrev RawFrame := List (String × List String)

/-- `expected_date_cols` of `app.py` line 88: the three known
date-bearing columns. -/
def expected_date_cols : List String :=
  ["order_date_time", "synthetic_date", "Survey_response_Date"]

/-- `pd.to_datetime(col, dayfirst=True, errors="coerce")` of `app.py`
line 95 over one column, with the day-first parser as a parameter: each
cell that fails to parse becomes a missing value, never an error. -/
def coerceColumn (parse : String → Option DateVal)
    (cells : List String) : List Cell :=
  cells.map (fun s => Cell.date (parse s))

/-- Conversion of one named column per `app.py` lines 88-96: a column
listed in `expected_date_cols` is date-coerced, every other column is
kept as text. -/
def convertOneCol (parse : String → Option DateVal)
    (col : String × List String) : String × List Cell :=
  if col.1 ∈ expected_date_cols then (col.1, coerceColumn parse col.2)
  else (col.1, col.2.map Cell.text)

/-- `app.py` lines 88-96: the date conversion applied column by
column over the frame (`df[existing_date_cols].apply(lambda col: ...)`
touches exactly the existing expected date columns). -/
def convertDateCols (parse : String → Option DateVal)
    (rf : RawFrame) : List (String × List Cell) :=
  rf.map (convertOneCol parse)

/-- The failure taxonomy of `load_data`: the missing-file error of
`app.py` lines 64-69 carrying the attempted path, and the re-raised
read failure of lines 72-83. -/
inductive LoadError where
  | datasetNotFound (path : String)
  | datasetParseError
deriving DecidableEq, Repr

/-- `load_data` of `app.py` lines 56-109, with the filesystem and the
CSV tokenizer as parameters: a missing file fails with the attempted
path, a file that cannot be tokenized fails with a parse error, and
otherwise the frame is returned with its date columns converted. -/
def load_data (fs : String → Option String)
    (tokenize : String → Option RawFrame)
    (parse : String → Option DateVal) (path : String) :
    Except LoadError (List (String × List Cell)) :=
  match fs path with
  | none => Except.error (LoadError.datasetNotFound path)
  | some content =>
      match tokenize content with
      | none => Except.error LoadError.datasetParseError
      | some rf => Except.ok (convertDateCols parse rf)

/-- C6: a textual cell of a date column that fails to parse becomes a
missing value at its position rather than an error; each column is
converted independently of every other column; and the load still
succeeds whenever the file tokenizes, whatever the date parser
returns. -/
theorem malformed_date_is_missing (parse : String → Option DateVal)
    (cells : List String) (i : Nat) (s : String)
    (hcell : cells[i]? = some s) (hfail : parse s = none) :
    (coerceColumn parse cells)[i]? = some (Cell.date none) ∧
    (∀ rf : RawFrame, ∀ j : Nat,
      (convertDateCols parse rf)[j]? = rf[j]?.map (convertOneCol parse)) ∧
    (∀ fs tokenize path content rf, fs path = some content →
      tokenize content = some rf →
      load_data fs tokenize parse path =
        Except.ok (convertDateCols parse rf)) := by
  refine ⟨?_, ?_, ?_⟩
  · rw [coerceColumn, List.getElem?_map, hcell]
    simp [hfail]
  · intro rf j
    rw [convertDateCols, List.getElem?_map]
  · intro fs tokenize path content rf h1 h2
    simp [load_data, h1, h2]

/-- Numeric value of a digit character. -/
def digitVal (c : Char) : Nat := c.toNat - 48

/-- A concrete day-first date parser for witnesses: accepts exactly
"DD-MM-YYYY" with in-range numeric components. -/
def parseDayFirst (s : String) : Option DateVal :=
  match s.toList with
  | [d1, d2, h1, m1, m2, h2, y1, y2, y3, y4] =>
      if (h1 = '-' ∧ h2 = '-' ∧
          ([d1, d2, m1, m2, y1, y2, y3, y4].all Char.isDigit) = true) then
        let dd := 10 * digitVal d1 + digitVal d2
        let mm := 10 * digitVal m1 + digitVal m2
        let yy := 1000 * digitVal y1 + 100 * digitVal y2 +
          10 * digitVal y3 + digitVal y4
        if 1 ≤ dd ∧ dd ≤ 31 ∧ 1 ≤ mm ∧ mm ≤ 12 then some (dd, mm, yy)
        else none
      else none
  | _ => none

/-- C6 witness: under the concrete parser, the malformed second cell of
a date column is coerced to a missing value. -/
theorem malformed_date_is_missing_witness :
    (coerceColumn parseDayFirst ["10-08-2023", "not-a-date"])[1]? =
      some (Cell.date none) :=
  (malformed_date_is_missing parseDayFirst ["10-08-2023", "not-a-date"]
    1 "not-a-date" rfl (by decide)).1

/-- C7: `load_data` fails with the dataset-not-found error exactly when
the path does not resolve to a file, and that error carries the
attempted path; when the file exists but cannot be tokenized it fails
with the parse error instead. -/
theorem load_data_errors (fs : String → Option String)
    (tokenize : String → Option RawFrame)
    (parse : String → Option DateVal) (path : String) :
    (fs path = none →
      load_data fs tokenize parse path =
        Except.error (LoadError.datasetNotFound path)) ∧
    (∀ content, fs path = some content → tokenize content = none →
      load_data fs tokenize parse path =
        Except.error LoadError.datasetParseError) ∧
    (∀ p, load_data fs tokenize parse path =
        Except.error (LoadError.datasetNotFound p) →
      fs path = none ∧ p = path) := by
  refine ⟨?_, ?_, ?_⟩
  · intro h
    simp [load_data, h]
  · intro content h1 h2
    simp [load_data, h1, h2]
  · intro p h
    cases hfs : fs path with
    | none =>
        constructor
        · rfl
        · rw [load_data] at h
          simp [hfs] at h
          exact h.symm
    | some content =>
        cases htok : tokenize content with
        | none => rw [load_data] at h; simp [hfs, htok] at h
        | some rf => rw [load_data] at h; simp [hfs, htok] at h

/-- C7 witness: a missing file yields the not-found error with the
attempted path, and an untokenizable file yields the parse error. -/
theorem load_data_errors_witness :
    load_data (fun _ => none) (fun _ => some []) parseDayFirst
        "sample_flagged.csv" =
      Except.error (LoadError.datasetNotFound "sample_flagged.csv") ∧
    load_data (fun _ => some "\x00") (fun _ => none) parseDayFirst
        "sample_flagged.csv" =
      Except.error LoadError.datasetParseError :=
  ⟨(load_data_errors (fun _ => none) (fun _ => some []) parseDayFirst
      "sample_flagged.csv").1 rfl,
   (load_data_errors (fun _ => some "\x00") (fun _ => none) parseDayFirst
      "sample_flagged.csv").2.1 "\x00" rfl rfl⟩

/-- The dataset's ten column names in their input order (the columns of
`app.py` lines 165-176). -/
def datasetColumns : List String :=
  ["Unique id", "Order_id", "order_date_time", "Customer Remarks",
   "sentiment_score", "Item_price", "synthetic_amount",
   "synthetic_merchant", "channel_name", "CSAT Score"]

/-- Render a date cell for CSV output; a missing value prints as the
empty field. -/
def renderOptDate : Option DateVal → String
  | none => ""
  | some (d, m, y) => toString d ++ "-" ++ toString m ++ "-" ++ toString y

/-- Render a numeric cell for CSV output; a missing value prints as the
empty field. -/
def renderOptQ : Option ℚ → String
  | none => ""
  | some q => toString q

/-- Render a categorical cell for CSV output; a missing value prints as
the empty field. -/
def renderOptStr : Option String → String
  | none => ""
  | some s => s

/-- The cells of one row, one per dataset column, in dataset column
order. -/
def rowCells (r : Row) : List String :=
  [r.uniqueId, r.orderId, renderOptDate r.orderDateTime,
   r.customerRemarks, renderOptQ r.sentiment, renderOptQ r.price,
   renderOptQ r.syntheticAmount, r.syntheticMerchant,
   renderOptStr r.channel, renderOptQ r.csat]

/-- Minimal CSV quoting as used by `to_csv`: a field containing a
separator, a quote or a line break is quoted, embedded quotes are
doubled. -/
def csvField (s : String) : String :=
  if s.contains ',' || s.contains '"' || s.contains '\n' ||
      s.contains '\r' then
    "\"" ++ s.replace "\"" "\"\"" ++ "\""
  else s

/-- One CSV line: the quoted cells joined by commas. -/
def csvLine (cells : List String) : String :=
  String.intercalate "," (cells.map csvField)

/-- `filtered.to_csv(index=False)` of `app.py` line 206: the header
line, then the rows streamed in order, each line newline-terminated; no
index column is written. -/
def to_csv (rows : List Row) : String :=
  rows.foldl (fun acc r => acc ++ csvLine (rowCells r) ++ "\n")
    (csvLine datasetColumns ++ "\n")

/-- The arguments of the `st.download_button` call of `app.py` lines
206-212. -/
structure DownloadButton where
  payload : String
  fileName : String
  mime : String
deriving DecidableEq, Repr

/-- `st.download_button(..., data=csv_bytes, file_name=..., mime=...)`
of `app.py` lines 206-212, applied to the filtered view. -/
def download_button (df : List Row) (c : Criteria) : DownloadButton :=
  { payload := to_csv (filtered df c),
    fileName := "flagged_filtered.csv",
    mime := "text/csv" }

/-- Modelled from the spec: the export payload is the header followed
by exactly the view's rows, each row one line of its cells in dataset
column order, nothing else written. -/
def specCsv (rows : List Row) : String :=
  csvLine datasetColumns ++ "\n" ++
    rows.foldr (fun r acc => csvLine (rowCells r) ++ "\n" ++ acc) ""

theorem foldl_append_eq_foldr (f : Row → String) :
    ∀ (l : List Row) (acc : String),
      l.foldl (fun a r => a ++ f r ++ "\n") acc =
        acc ++ l.foldr (fun r b => f r ++ "\n" ++ b) "" := by
  intro l
  induction l with
  | nil =>
      intro acc
      simp
  | cons a t ih =>
      intro acc
      simp only [List.foldl_cons, List.foldr_cons, ih]
      rw [String.append_assoc, String.append_assoc,
        String.append_assoc]

/-- C9: the download button serializes exactly the filtered view's rows
as CSV — the header of the dataset's columns, then one line per
surviving row in view order, each line carrying one field per dataset
column and no added index column — under the file name
`flagged_filtered.csv` and the MIME type `text/csv`. -/
theorem download_button_spec (df : List Row) (c : Criteria) :
    download_button df c =
      { payload := specCsv (filtered df c),
        fileName := "flagged_filtered.csv",
        mime := "text/csv" } ∧
    ∀ r : Row, (rowCells r).length = datasetColumns.length := by
  refine ⟨?_, fun r => rfl⟩
  have h : to_csv (filtered df c) = specCsv (filtered df c) := by
    unfold to_csv specCsv
    rw [foldl_append_eq_foldr]
  rw [download_button, h]
